import Mathlib

/-!
Shallow embedding of the Hydraulic Fault Dashboard client.

The definitions below transcribe the TypeScript hooks and components of the
repository (`src/hooks/useAuth.ts`, `src/hooks/useHydraulicSimulation.ts`,
`src/hooks/useNotifications.ts`, the `ControlPanel` and
`RealTimeNotifications` components, and `src/config/environment.ts`) into
Lean.  Stateful hook callbacks become pure state-transition functions that
take the relevant React state plus the outcome of the network request and
return the updated state together with any scheduled follow-up work.
-/

namespace HydraulicDashboard

/-- A registered user record as persisted in the browser-stored
`hydraulic_users` list (the `userCredentials` shape in `useAuth.ts`:
a `User` plus the plaintext password). -/
structure StoredUser where
  id : String
  username : String
  email : String
  password : String
  role : String
  permissions : List String
  createdAt : Nat
deriving Repr, DecidableEq

/-- The `User` interface of `useAuth.ts`. -/
structure User where
  id : String
  username : String
  email : String
  role : String
  permissions : List String
  createdAt : Nat
deriving Repr, DecidableEq

/-- `getPermissions` from `useAuth.ts`: static role-to-permission lookup. -/
def getPermissions (role : String) : List String :=
  if role = "admin" then
    ["read", "write", "delete", "manage_users", "inject_faults", "reset_system", "train_ml", "export_data"]
  else if role = "operator" then
    ["read", "write", "inject_faults", "reset_system", "train_ml"]
  else if role = "viewer" then
    ["read"]
  else
    []

/-- One entry of the hardcoded `validCredentials` demo list in `login`. -/
structure DemoCredential where
  username : String
  password : String
  role : String
  email : String
deriving Repr, DecidableEq

/-- The hardcoded demo credential list from `useAuth.ts` `login`. -/
def validCredentials : List DemoCredential :=
  [ { username := "admin", password := "admin123", role := "admin", email := "admin@hydraulic.com" },
    { username := "operator", password := "operator123", role := "operator", email := "operator@hydraulic.com" },
    { username := "viewer", password := "viewer123", role := "viewer", email := "viewer@hydraulic.com" } ]

/-- The predicate `login` uses on browser-stored users:
`(u.username === username || u.email === username) && u.password === password`. -/
def storedUserMatches (username password : String) (u : StoredUser) : Bool :=
  (u.username == username || u.email == username) && u.password == password

/-- The predicate `login` uses on the demo credential list:
`(cred.username === username || cred.email === username) && cred.password === password`. -/
def credentialMatches (username password : String) (c : DemoCredential) : Bool :=
  (c.username == username || c.email == username) && c.password == password

/-- The `userData` object built from a matching browser-stored user in `login`. -/
def storedUserToUser (u : StoredUser) : User :=
  { id := u.id, username := u.username, email := u.email, role := u.role,
    permissions := u.permissions, createdAt := u.createdAt }

/-- The `userData` object built from a matching demo credential in `login`. -/
def demoUser (c : DemoCredential) (now : Nat) : User :=
  { id := "demo_" ++ c.username, username := c.username, email := c.email, role := c.role,
    permissions := getPermissions c.role, createdAt := now }

/-- `login` from `useAuth.ts`, as a pure function: given the browser-stored
registered-user list and the submitted username/password, it returns the
logged-in user (`some`) or `none` for a rejected login.  Stored users are
checked first; the demo credential list is the fallback. -/
def login (storedUsers : List StoredUser) (username password : String) (now : Nat) : Option User :=
  match storedUsers.find? (storedUserMatches username password) with
  | some su => some (storedUserToUser su)
  | none =>
    match validCredentials.find? (credentialMatches username password) with
    | some c => some (demoUser c now)
    | none => none

/-- `hasPermission` from `useAuth.ts`:
`user?.permissions.includes(permission) || false`. -/
def hasPermission (user : Option User) (permission : String) : Bool :=
  match user with
  | some u => u.permissions.contains permission
  | none => false

/-- The auth-related React state of `useAuth`. -/
structure AuthState where
  user : Option User
  isAuthenticated : Bool

/-- `logout` from `useAuth.ts`: clears the user and the authenticated flag
(and removes the browser-stored session, not modelled here). -/
def logout (_s : AuthState) : AuthState :=
  { user := none, isAuthenticated := false }

/-- Spec-side characterization (for comparison with `login`): the spec's three
documented demo credential pairs, accepted on username or email. -/
def specDemoPairsAccept (username password : String) : Prop :=
  ((username = "admin" ∨ username = "admin@hydraulic.com") ∧ password = "admin123") ∨
  ((username = "operator" ∨ username = "operator@hydraulic.com") ∧ password = "operator123") ∨
  ((username = "viewer" ∨ username = "viewer@hydraulic.com") ∧ password = "viewer123")

instance (username password : String) : Decidable (specDemoPairsAccept username password) := by
  unfold specDemoPairsAccept
  infer_instance

/-- C1: with an empty browser-stored registered-user list, `login` succeeds
exactly on the three demo credential pairs (matching on username or email);
and whenever some stored user matches, `login` returns that stored user,
so stored users are accepted before the demo fallback. -/
theorem login_demo_exact_and_stored_first
    (storedUsers : List StoredUser) (username password : String) (now : Nat) :
    ((login [] username password now).isSome ↔ specDemoPairsAccept username password) ∧
    (∀ su, storedUsers.find? (storedUserMatches username password) = some su →
      login storedUsers username password now = some (storedUserToUser su)) := by
  constructor
  · show (login [] username password now).isSome ↔ specDemoPairsAccept username password
    have hnil : ([] : List StoredUser).find? (storedUserMatches username password) = none := rfl
    unfold login
    rw [hnil]
    have hiff : (validCredentials.find? (credentialMatches username password)).isSome = true ↔
        ∃ c, c ∈ validCredentials ∧ credentialMatches username password c = true :=
      List.find?_isSome
    constructor
    · intro h
      have hsome : (validCredentials.find? (credentialMatches username password)).isSome = true := by
        cases hfind : validCredentials.find? (credentialMatches username password) with
        | none => rw [hfind] at h; simp at h
        | some c => simp [hfind]
      obtain ⟨c, hc, hm⟩ := hiff.mp hsome
      unfold specDemoPairsAccept
      unfold credentialMatches at hm
      simp only [Bool.and_eq_true, Bool.or_eq_true, beq_iff_eq] at hm
      simp only [validCredentials, List.mem_cons, List.not_mem_nil, or_false] at hc
      rcases hc with hc | hc | hc <;> subst hc <;>
        simp only at hm <;> tauto
    · intro h
      have hsome : (validCredentials.find? (credentialMatches username password)).isSome = true := by
        apply hiff.mpr
        unfold specDemoPairsAccept at h
        rcases h with ⟨hu, hp⟩ | ⟨hu, hp⟩ | ⟨hu, hp⟩
        · refine ⟨validCredentials[0], by simp [validCredentials], ?_⟩
          unfold credentialMatches validCredentials
          simp only [Bool.and_eq_true, Bool.or_eq_true, beq_iff_eq]
          exact ⟨by tauto, hp.symm⟩
        · refine ⟨validCredentials[1], by simp [validCredentials], ?_⟩
          unfold credentialMatches validCredentials
          simp only [Bool.and_eq_true, Bool.or_eq_true, beq_iff_eq]
          exact ⟨by tauto, hp.symm⟩
        · refine ⟨validCredentials[2], by simp [validCredentials], ?_⟩
          unfold credentialMatches validCredentials
          simp only [Bool.and_eq_true, Bool.or_eq_true, beq_iff_eq]
          exact ⟨by tauto, hp.symm⟩
      cases hfind : validCredentials.find? (credentialMatches username password) with
      | none => rw [hfind] at hsome; simp at hsome
      | some c => simp [hfind]
  · intro su h
    unfold login
    rw [h]

/-- Witness for C1: the demo pair admin/admin123 is accepted on the empty
store, and a matching stored user is returned ahead of the demo fallback. -/
theorem login_demo_exact_and_stored_first_witness :
    (login [] "admin" "admin123" 0).isSome = true ∧
    login [⟨"u1", "bob", "bob@x.com", "pw", "viewer", ["read"], 7⟩] "bob" "pw" 0 =
      some (storedUserToUser ⟨"u1", "bob", "bob@x.com", "pw", "viewer", ["read"], 7⟩) := by
  constructor
  · exact (login_demo_exact_and_stored_first [] "admin" "admin123" 0).1.mpr
      (by unfold specDemoPairsAccept; tauto)
  · exact (login_demo_exact_and_stored_first
      [⟨"u1", "bob", "bob@x.com", "pw", "viewer", ["read"], 7⟩] "bob" "pw" 0).2 _ (by decide)

/-- C2: for a user whose permissions come from the role lookup,
`hasPermission "inject_faults"` holds exactly for the admin and operator
roles; the viewer role and any unrecognized role yield `false`. -/
theorem hasPermission_inject_faults_iff (r : String) (u : User)
    (h : u.permissions = getPermissions r) :
    hasPermission (some u) "inject_faults" = true ↔ (r = "admin" ∨ r = "operator") := by
  show u.permissions.contains "inject_faults" = true ↔ (r = "admin" ∨ r = "operator")
  rw [h]
  unfold getPermissions
  split_ifs with h1 h2 h3
  · subst h1; decide
  · subst h2; decide
  · subst h3
    constructor
    · intro hc; exact absurd hc (by decide)
    · rintro (hr | hr) <;> exact absurd hr (by decide)
  · constructor
    · intro hc; exact absurd hc (by decide)
    · rintro (hr | hr) <;> [exact absurd hr h1; exact absurd hr h2]

/-- Witness for C2: an operator-derived user does have `inject_faults`. -/
theorem hasPermission_inject_faults_iff_witness :
    hasPermission (some ⟨"demo_operator", "operator", "operator@hydraulic.com", "operator",
      getPermissions "operator", 0⟩) "inject_faults" = true :=
  (hasPermission_inject_faults_iff "operator" _ rfl).mpr (Or.inr rfl)

/-- C10: with no logged-in user (`user` is `null`, as before login or after
`logout`), `hasPermission` returns `false` for every permission string. -/
theorem hasPermission_none_false (s : AuthState) (permission : String) :
    hasPermission none permission = false ∧
    hasPermission (logout s).user permission = false :=
  ⟨rfl, rfl⟩

/-- The `HydraulicData` interface of `useHydraulicSimulation.ts` (sensor
magnitudes are opaque to every claim; modelled as integers). -/
structure HydraulicData where
  timestamp : Nat
  pressure : Int
  flow_rate : Int
  temperature : Int
  vibration : Int
  oil_level : Int
  pump_speed : Int
  system_load : Int
deriving Repr, DecidableEq

/-- The `Alert` interface of `useHydraulicSimulation.ts`. -/
structure Alert where
  id : String
  type : String
  message : String
  timestamp : Nat
deriving Repr, DecidableEq

/-- The `MLPrediction` interface of `useHydraulicSimulation.ts`. -/
structure MLPrediction where
  days_to_failure : Option Int
  confidence : Int
  risk_level : String
  trend_analysis : String
deriving Repr, DecidableEq

/-- The React state held by `useHydraulicSimulation`. -/
structure SimState where
  currentData : Option HydraulicData
  historicalData : List HydraulicData
  systemHealth : String
  alerts : List Alert
  mlPrediction : Option MLPrediction
  isRunning : Bool
deriving Repr, DecidableEq

/-- Outcome of a `fetch` call: an ok response carrying a parsed body, a
non-ok response, or a thrown network error. -/
inductive FetchOutcome (α : Type)
  | ok (body : α)
  | notOk
  | failure
deriving Repr, DecidableEq

/-- `l` begins with the character sequence `p` (JS `String.prototype.startsWith`
on the underlying characters). -/
def charsBeginWith : List Char → List Char → Bool
  | _, [] => true
  | [], _ :: _ => false
  | c :: cs, d :: ds => c == d && charsBeginWith cs ds

/-- `sub` occurs contiguously inside `l` (JS `String.prototype.includes`
on the underlying characters). -/
def charsContain : List Char → List Char → Bool
  | [], sub => charsBeginWith [] sub
  | c :: cs, sub => charsBeginWith (c :: cs) sub || charsContain cs sub

/-- JS `s.includes(sub)`. -/
def strIncludes (s sub : String) : Bool :=
  charsContain s.data sub.data

/-- The local `connectionAlert` object synthesized by `fetchStatus` when the
status fetch throws. -/
def connectionErrorAlert (apiBaseUrl : String) (now : Nat) : Alert :=
  { id := "connection-error-" ++ toString now,
    type := "error",
    message := "Backend server may not be running at " ++ apiBaseUrl ++ ". Please check your connection.",
    timestamp := now }

/-- The JSON body of an ok `GET /status` response as read by `fetchStatus`
(`alerts` may be absent: `status.alerts || []`). -/
structure StatusResponse where
  health : String
  is_running : Bool
  current_data : Option HydraulicData
  alerts : Option (List Alert)
  ml_prediction : Option MLPrediction
deriving Repr, DecidableEq

/-- `fetchStatus` from `useHydraulicSimulation.ts` as a state transition on
the hook state, parameterized by the fetch outcome.  On an ok response it
copies the body into the state; on a non-ok response it does nothing; on a
thrown error it replaces any previous connection-error alerts with a single
fresh one. -/
def fetchStatus (s : SimState) (outcome : FetchOutcome StatusResponse)
    (apiBaseUrl : String) (now : Nat) : SimState :=
  match outcome with
  | FetchOutcome.ok st =>
    { s with
      systemHealth := st.health,
      isRunning := st.is_running,
      currentData := match st.current_data with | some d => some d | none => s.currentData,
      alerts := st.alerts.getD [],
      mlPrediction := match st.ml_prediction with | some m => some m | none => s.mlPrediction }
  | FetchOutcome.notOk => s
  | FetchOutcome.failure =>
    { s with alerts :=
        s.alerts.filter (fun a => !(strIncludes a.id "connection-error")) ++
          [connectionErrorAlert apiBaseUrl now] }

/-- `fetchHistoricalData` from `useHydraulicSimulation.ts`: an ok response
body is stored into `historicalData` verbatim; otherwise nothing changes. -/
def fetchHistoricalData (s : SimState) (outcome : FetchOutcome (List HydraulicData)) : SimState :=
  match outcome with
  | FetchOutcome.ok data => { s with historicalData := data }
  | FetchOutcome.notOk => s
  | FetchOutcome.failure => s

/-- `endpoints.simulation.start` from `src/config/environment.ts`. -/
def startEndpoint (apiBaseUrl : String) : String :=
  apiBaseUrl ++ "/simulation/start"

/-- `endpoints.simulation.stop` from `src/config/environment.ts`. -/
def stopEndpoint (apiBaseUrl : String) : String :=
  apiBaseUrl ++ "/simulation/stop"

/-- `endpoints.simulation.reset` from `src/config/environment.ts`. -/
def resetEndpoint (apiBaseUrl : String) : String :=
  apiBaseUrl ++ "/simulation/reset"

/-- `endpoints.faults.inject(type)` from `src/config/environment.ts`. -/
def injectEndpoint (apiBaseUrl faultType : String) : String :=
  apiBaseUrl ++ "/faults/inject/" ++ faultType

/-- The observable result of one imperative hook action: the endpoint POSTed
to, the updated hook state, and the delay (ms) of a scheduled `fetchStatus`
refetch, if one was scheduled. -/
structure ActionResult where
  endpoint : String
  state : SimState
  refetchDelayMs : Option Nat
deriving Repr, DecidableEq

/-- `toggleSimulation` from `useHydraulicSimulation.ts`: POSTs to the stop
endpoint when running and the start endpoint when stopped; on an ok response
flips `isRunning` and schedules `fetchStatus` after 100 ms; otherwise leaves
the state untouched (the error paths only log or alert). -/
def toggleSimulation (s : SimState) (outcome : FetchOutcome Unit) (apiBaseUrl : String) : ActionResult :=
  let endpoint := if s.isRunning then stopEndpoint apiBaseUrl else startEndpoint apiBaseUrl
  match outcome with
  | FetchOutcome.ok _ =>
    { endpoint := endpoint, state := { s with isRunning := !s.isRunning }, refetchDelayMs := some 100 }
  | FetchOutcome.notOk => { endpoint := endpoint, state := s, refetchDelayMs := none }
  | FetchOutcome.failure => { endpoint := endpoint, state := s, refetchDelayMs := none }

/-- `injectFault` from `useHydraulicSimulation.ts`: POSTs to the fault
injection endpoint; on ok only schedules a refetch, never mutates state. -/
def injectFault (s : SimState) (faultType : String) (outcome : FetchOutcome Unit)
    (apiBaseUrl : String) : ActionResult :=
  match outcome with
  | FetchOutcome.ok _ =>
    { endpoint := injectEndpoint apiBaseUrl faultType, state := s, refetchDelayMs := some 100 }
  | FetchOutcome.notOk =>
    { endpoint := injectEndpoint apiBaseUrl faultType, state := s, refetchDelayMs := none }
  | FetchOutcome.failure =>
    { endpoint := injectEndpoint apiBaseUrl faultType, state := s, refetchDelayMs := none }

/-- `resetSystem` from `useHydraulicSimulation.ts`: on an ok response clears
`historicalData`, `alerts` and `mlPrediction` and schedules a refetch after
100 ms; on a non-ok response or a thrown error it changes nothing. -/
def resetSystem (s : SimState) (outcome : FetchOutcome Unit) (apiBaseUrl : String) : ActionResult :=
  match outcome with
  | FetchOutcome.ok _ =>
    { endpoint := resetEndpoint apiBaseUrl,
      state := { s with historicalData := [], alerts := [], mlPrediction := none },
      refetchDelayMs := some 100 }
  | FetchOutcome.notOk =>
    { endpoint := resetEndpoint apiBaseUrl, state := s, refetchDelayMs := none }
  | FetchOutcome.failure =>
    { endpoint := resetEndpoint apiBaseUrl, state := s, refetchDelayMs := none }

/-- Prepending characters that begin with `p` to anything still begins with `p`. -/
theorem charsBeginWith_append (p l rest : List Char) (h : charsBeginWith l p = true) :
    charsBeginWith (l ++ rest) p = true := by
  induction p generalizing l with
  | nil => simp [charsBeginWith]
  | cons d ds ih =>
    cases l with
    | nil => simp [charsBeginWith] at h
    | cons c cs =>
      rw [List.cons_append]
      rw [charsBeginWith] at h ⊢
      simp only [Bool.and_eq_true] at h ⊢
      exact ⟨h.1, ih cs h.2⟩

/-- Beginning with `sub` implies containing `sub`. -/
theorem charsContain_of_beginWith (l sub : List Char) (h : charsBeginWith l sub = true) :
    charsContain l sub = true := by
  cases l with
  | nil => exact h
  | cons c cs => rw [charsContain]; simp [h]

/-- The id of a freshly synthesized connection alert begins with
the characters of "connection-error". -/
theorem connectionErrorAlert_id_beginWith (apiBaseUrl : String) (now : Nat) :
    charsBeginWith (connectionErrorAlert apiBaseUrl now).id.data ("connection-error").data = true := by
  show charsBeginWith ("connection-error-" ++ toString now).data ("connection-error").data = true
  rw [String.data_append]
  exact charsBeginWith_append _ _ _ (by decide)

/-- The id of a freshly synthesized connection alert contains "connection-error". -/
theorem connectionErrorAlert_id_includes (apiBaseUrl : String) (now : Nat) :
    strIncludes (connectionErrorAlert apiBaseUrl now).id "connection-error" = true :=
  charsContain_of_beginWith _ _ (connectionErrorAlert_id_beginWith apiBaseUrl now)

/-- C3: when the status fetch throws, `fetchStatus` removes every alert whose
id contains "connection-error", appends one fresh alert whose id begins with
"connection-error", leaves every other alert unchanged, and the resulting
list holds exactly one connection-error alert. -/
theorem fetchStatus_failure_single_connection_error
    (s : SimState) (apiBaseUrl : String) (now : Nat) :
    charsBeginWith (connectionErrorAlert apiBaseUrl now).id.data ("connection-error").data = true ∧
    (fetchStatus s FetchOutcome.failure apiBaseUrl now).alerts =
      s.alerts.filter (fun a => !(strIncludes a.id "connection-error")) ++
        [connectionErrorAlert apiBaseUrl now] ∧
    (fetchStatus s FetchOutcome.failure apiBaseUrl now).alerts.filter
        (fun a => strIncludes a.id "connection-error") =
      [connectionErrorAlert apiBaseUrl now] ∧
    (fetchStatus s FetchOutcome.failure apiBaseUrl now).alerts.filter
        (fun a => !(strIncludes a.id "connection-error")) =
      s.alerts.filter (fun a => !(strIncludes a.id "connection-error")) := by
  refine ⟨connectionErrorAlert_id_beginWith apiBaseUrl now, rfl, ?_, ?_⟩
  · show (s.alerts.filter (fun a => !(strIncludes a.id "connection-error")) ++
        [connectionErrorAlert apiBaseUrl now]).filter
        (fun a => strIncludes a.id "connection-error") = _
    rw [List.filter_append, List.filter_filter]
    have h1 : List.filter
        (fun a => strIncludes a.id "connection-error" && !(strIncludes a.id "connection-error"))
        s.alerts = [] := by
      rw [List.filter_eq_nil_iff]
      intro a _
      cases strIncludes a.id "connection-error" <;> simp
    rw [h1]
    simp [List.filter, connectionErrorAlert_id_includes apiBaseUrl now]
  · show (s.alerts.filter (fun a => !(strIncludes a.id "connection-error")) ++
        [connectionErrorAlert apiBaseUrl now]).filter
        (fun a => !(strIncludes a.id "connection-error")) = _
    rw [List.filter_append, List.filter_filter]
    have h1 : List.filter
        (fun a => !(strIncludes a.id "connection-error") && !(strIncludes a.id "connection-error"))
        s.alerts = List.filter (fun a => !(strIncludes a.id "connection-error")) s.alerts := by
      apply List.filter_congr
      intro a _
      cases strIncludes a.id "connection-error" <;> simp
    rw [h1]
    simp [List.filter, connectionErrorAlert_id_includes apiBaseUrl now]

/-- C4: `toggleSimulation` POSTs to the stop endpoint when running and the
start endpoint when stopped; an ok response flips `isRunning` and schedules
a `fetchStatus` refetch after 100 ms; a non-ok response leaves the state
(including `isRunning`) unchanged and schedules nothing. -/
theorem toggleSimulation_flips_on_ok (s : SimState) (outcome : FetchOutcome Unit)
    (apiBaseUrl : String) :
    (toggleSimulation s outcome apiBaseUrl).endpoint =
      (if s.isRunning then stopEndpoint apiBaseUrl else startEndpoint apiBaseUrl) ∧
    (outcome = FetchOutcome.ok () →
      (toggleSimulation s outcome apiBaseUrl).state.isRunning = !s.isRunning ∧
      (toggleSimulation s outcome apiBaseUrl).refetchDelayMs = some 100) ∧
    (outcome = FetchOutcome.notOk →
      (toggleSimulation s outcome apiBaseUrl).state = s ∧
      (toggleSimulation s outcome apiBaseUrl).refetchDelayMs = none) := by
  cases outcome <;> simp [toggleSimulation]

/-- Witness for C4 at a concrete stopped state: an ok POST starts it and
schedules the refetch; a non-ok POST leaves it stopped. -/
theorem toggleSimulation_flips_on_ok_witness :
    (toggleSimulation ⟨none, [], "healthy", [], none, false⟩ (FetchOutcome.ok ()) "http://localhost:8000").state.isRunning = true ∧
    (toggleSimulation ⟨none, [], "healthy", [], none, false⟩ FetchOutcome.notOk "http://localhost:8000").state =
      ⟨none, [], "healthy", [], none, false⟩ := by
  constructor
  · exact ((toggleSimulation_flips_on_ok ⟨none, [], "healthy", [], none, false⟩
      (FetchOutcome.ok ()) "http://localhost:8000").2.1 rfl).1
  · exact ((toggleSimulation_flips_on_ok ⟨none, [], "healthy", [], none, false⟩
      FetchOutcome.notOk "http://localhost:8000").2.2 rfl).1

/-- C9: a `resetSystem` whose POST is ok clears `historicalData`, `alerts`
and `mlPrediction`, schedules a refetch after 100 ms, and leaves
`currentData`, `systemHealth` and `isRunning` unchanged; a non-ok response
or a thrown error leaves the whole state unchanged with no refetch. -/
theorem resetSystem_clears_on_ok (s : SimState) (outcome : FetchOutcome Unit)
    (apiBaseUrl : String) :
    (outcome = FetchOutcome.ok () →
      (resetSystem s outcome apiBaseUrl).state.historicalData = [] ∧
      (resetSystem s outcome apiBaseUrl).state.alerts = [] ∧
      (resetSystem s outcome apiBaseUrl).state.mlPrediction = none ∧
      (resetSystem s outcome apiBaseUrl).state.currentData = s.currentData ∧
      (resetSystem s outcome apiBaseUrl).state.systemHealth = s.systemHealth ∧
      (resetSystem s outcome apiBaseUrl).state.isRunning = s.isRunning ∧
      (resetSystem s outcome apiBaseUrl).refetchDelayMs = some 100) ∧
    (outcome ≠ FetchOutcome.ok () →
      (resetSystem s outcome apiBaseUrl).state = s ∧
      (resetSystem s outcome apiBaseUrl).refetchDelayMs = none) := by
  cases outcome <;> simp [resetSystem]

/-- Witness for C9 at a concrete populated state: an ok reset clears the
three buffers and keeps `isRunning`; a failed reset changes nothing. -/
theorem resetSystem_clears_on_ok_witness :
    (resetSystem ⟨none, [⟨3, 1, 1, 1, 1, 1, 1, 1⟩], "warning", [⟨"a1", "info", "m", 2⟩], none, true⟩
      (FetchOutcome.ok ()) "http://localhost:8000").state.historicalData = [] ∧
    (resetSystem ⟨none, [⟨3, 1, 1, 1, 1, 1, 1, 1⟩], "warning", [⟨"a1", "info", "m", 2⟩], none, true⟩
      FetchOutcome.failure "http://localhost:8000").state =
      ⟨none, [⟨3, 1, 1, 1, 1, 1, 1, 1⟩], "warning", [⟨"a1", "info", "m", 2⟩], none, true⟩ := by
  constructor
  · exact ((resetSystem_clears_on_ok _ (FetchOutcome.ok ()) "http://localhost:8000").1 rfl).1
  · exact ((resetSystem_clears_on_ok _ FetchOutcome.failure "http://localhost:8000").2 (by simp)).1

/-- Adjacent timestamps are nondecreasing along the list. -/
def timestampsAscending : List HydraulicData → Bool
  | [] => true
  | [_] => true
  | a :: b :: rest => decide (a.timestamp ≤ b.timestamp) && timestampsAscending (b :: rest)

/-- Modelled from the spec: the FastAPI backend serving `GET /data/historical`
is absent from the provided source; per the spec, `HydraulicDataPoint` lists
are ordered by timestamp ascending, so an ok response body satisfies this. -/
def backendHistoricalResponseOk (data : List HydraulicData) : Prop :=
  timestampsAscending data = true

/-- The Boolean adjacency check coincides with the chain of pairwise
timestamp comparisons over adjacent elements. -/
theorem timestampsAscending_iff_chain :
    ∀ l : List HydraulicData,
      timestampsAscending l = true ↔ List.Chain' (fun a b => a.timestamp ≤ b.timestamp) l
  | [] => by simp [timestampsAscending]
  | [_] => by simp [timestampsAscending]
  | a :: b :: rest => by
    rw [timestampsAscending, List.chain'_cons]
    simp only [Bool.and_eq_true, decide_eq_true_eq]
    exact and_congr Iff.rfl (timestampsAscending_iff_chain (b :: rest))

/-- C8: a successful historical fetch stores the response body verbatim
(no client-side sorting or derivation), and — with the backend response
modelled per the spec as timestamp-ascending — every pair of adjacent
elements of the stored buffer is ordered by timestamp. -/
theorem fetchHistoricalData_stores_sorted (s : SimState) (data : List HydraulicData)
    (h : backendHistoricalResponseOk data) :
    (fetchHistoricalData s (FetchOutcome.ok data)).historicalData = data ∧
    List.Chain' (fun a b => a.timestamp ≤ b.timestamp)
      (fetchHistoricalData s (FetchOutcome.ok data)).historicalData :=
  ⟨rfl, (timestampsAscending_iff_chain data).mp h⟩

/-- Witness for C8 at a concrete two-point response. -/
theorem fetchHistoricalData_stores_sorted_witness :
    (fetchHistoricalData ⟨none, [], "healthy", [], none, true⟩
      (FetchOutcome.ok [⟨1, 0, 0, 0, 0, 0, 0, 0⟩, ⟨2, 0, 0, 0, 0, 0, 0, 0⟩])).historicalData =
      [⟨1, 0, 0, 0, 0, 0, 0, 0⟩, ⟨2, 0, 0, 0, 0, 0, 0, 0⟩] :=
  (fetchHistoricalData_stores_sorted ⟨none, [], "healthy", [], none, true⟩
    [⟨1, 0, 0, 0, 0, 0, 0, 0⟩, ⟨2, 0, 0, 0, 0, 0, 0, 0⟩]
    (show timestampsAscending _ = true by decide)).1

/-- The `Notification` interface of `useNotifications.ts` (the optional
`persistent` flag defaults to `false`). -/
structure Notification where
  id : String
  type : String
  title : String
  message : String
  timestamp : Nat
  persistent : Bool
deriving Repr, DecidableEq

/-- The fresh notification object built inside `addNotification`. -/
def mkNotification (type title message : String) (persistent : Bool)
    (newId : String) (now : Nat) : Notification :=
  { id := newId, type := type, title := title, message := message,
    timestamp := now, persistent := persistent }

/-- `addNotification` from `useNotifications.ts` as a pure update of the
previous notifications list: a duplicate (same title and message) leaves the
list untouched, otherwise the fresh notification is appended at the end. -/
def addNotification (prev : List Notification) (type title message : String)
    (persistent : Bool) (newId : String) (now : Nat) : List Notification :=
  if prev.any (fun n => n.title == title && n.message == message) then prev
  else prev ++ [mkNotification type title message persistent newId now]

/-- C6: `addNotification` is idempotent on duplicates — when some existing
notification shares the title and the message, the list is returned
unchanged; otherwise exactly one fresh notification is appended at the end
and the existing ones are untouched. -/
theorem addNotification_dedup_append (prev : List Notification)
    (type title message : String) (persistent : Bool) (newId : String) (now : Nat) :
    ((∃ n ∈ prev, n.title = title ∧ n.message = message) →
      addNotification prev type title message persistent newId now = prev) ∧
    (¬ (∃ n ∈ prev, n.title = title ∧ n.message = message) →
      addNotification prev type title message persistent newId now =
        prev ++ [mkNotification type title message persistent newId now]) := by
  have hany : (prev.any (fun n => n.title == title && n.message == message)) = true ↔
      ∃ n ∈ prev, n.title = title ∧ n.message = message := by
    rw [List.any_eq_true]
    simp only [Bool.and_eq_true, beq_iff_eq]
  constructor
  · intro h
    unfold addNotification
    rw [if_pos (hany.mpr h)]
  · intro h
    unfold addNotification
    rw [if_neg (fun hc => h (hany.mp hc))]

/-- Witness for C6: a duplicate is dropped and a fresh pair is appended. -/
theorem addNotification_dedup_append_witness :
    addNotification [⟨"i0", "info", "T", "M", 1, false⟩] "warning" "T" "M" false "i1" 2 =
      [⟨"i0", "info", "T", "M", 1, false⟩] ∧
    addNotification [⟨"i0", "info", "T", "M", 1, false⟩] "warning" "T2" "M" false "i1" 2 =
      [⟨"i0", "info", "T", "M", 1, false⟩, mkNotification "warning" "T2" "M" false "i1" 2] := by
  constructor
  · exact (addNotification_dedup_append [⟨"i0", "info", "T", "M", 1, false⟩]
      "warning" "T" "M" false "i1" 2).1 ⟨_, List.mem_singleton.mpr rfl, rfl, rfl⟩
  · refine (addNotification_dedup_append [⟨"i0", "info", "T", "M", 1, false⟩]
      "warning" "T2" "M" false "i1" 2).2 ?_
    rintro ⟨n, hn, ht, hm⟩
    rw [List.mem_singleton] at hn
    subst hn
    exact absurd ht (by decide)

/-- The auto-dismiss effect of `RealTimeNotifications`: the `setTimeout`
timers scheduled on one run of the effect — a pair of the dismissed id and
the 5000 ms delay for each non-persistent notification. -/
def dismissTimers (notifications : List Notification) : List (String × Nat) :=
  (notifications.filter (fun n => !n.persistent)).map (fun n => (n.id, 5000))

/-- C7: the effect schedules a 5000 ms dismissal timer for every
non-persistent notification, and every scheduled timer originates from a
non-persistent notification (none is scheduled for a persistent one). -/
theorem dismissTimers_exactly_non_persistent (notifications : List Notification) :
    (∀ n ∈ notifications, n.persistent = false → (n.id, 5000) ∈ dismissTimers notifications) ∧
    (∀ t ∈ dismissTimers notifications,
      ∃ n ∈ notifications, n.persistent = false ∧ t = (n.id, 5000)) := by
  constructor
  · intro n hn hp
    unfold dismissTimers
    rw [List.mem_map]
    exact ⟨n, List.mem_filter.mpr ⟨hn, by rw [hp]; rfl⟩, rfl⟩
  · intro t ht
    unfold dismissTimers at ht
    rw [List.mem_map] at ht
    obtain ⟨n, hn, rfl⟩ := ht
    rw [List.mem_filter] at hn
    refine ⟨n, hn.1, ?_, rfl⟩
    have := hn.2
    cases hpn : n.persistent
    · rfl
    · rw [hpn] at this; exact absurd this (by decide)

/-- Witness for C7: with one persistent and one transient notification,
exactly the transient one gets a 5000 ms timer. -/
theorem dismissTimers_exactly_non_persistent_witness :
    ("t1", 5000) ∈ dismissTimers
      [⟨"t1", "info", "A", "M", 1, false⟩, ⟨"t2", "error", "B", "M", 2, true⟩] ∧
    ∃ n ∈ [⟨"t1", "info", "A", "M", 1, false⟩, (⟨"t2", "error", "B", "M", 2, true⟩ : Notification)],
      n.persistent = false ∧ (("t1", 5000) : String × Nat) = (n.id, 5000) := by
  constructor
  · exact (dismissTimers_exactly_non_persistent _).1 ⟨"t1", "info", "A", "M", 1, false⟩
      (List.mem_cons_self _ _) rfl
  · exact (dismissTimers_exactly_non_persistent
      [⟨"t1", "info", "A", "M", 1, false⟩, ⟨"t2", "error", "B", "M", 2, true⟩]).2
      ("t1", 5000) (by decide)

/-- The disabled condition of the ControlPanel Inject Fault button:
`disabled = !selectedFault || !isRunning` (a falsy `selectedFault` is the
empty string). -/
def injectButtonDisabled (selectedFault : String) (isRunning : Bool) : Bool :=
  selectedFault == "" || !isRunning

/-- `ControlPanel.handleInjectFault`: calls `onInjectFault(selectedFault)`
only when a fault type is selected and the simulation is running; the result
is the fault type POSTed, or `none` when no call is made. -/
def handleInjectFault (selectedFault : String) (isRunning : Bool) : Option String :=
  if selectedFault != "" && isRunning then some selectedFault else none

/-- C5: injecting while stopped is a no-op — the handler issues no
fault-injection POST when the simulation is stopped, the button is enabled
exactly when a fault is selected and the simulation runs, and the handler
POSTs the selected fault exactly under that same condition. -/
theorem handleInjectFault_noop_when_stopped (selectedFault : String) (isRunning : Bool) :
    handleInjectFault selectedFault false = none ∧
    (injectButtonDisabled selectedFault isRunning = false ↔
      (selectedFault ≠ "" ∧ isRunning = true)) ∧
    (handleInjectFault selectedFault isRunning = some selectedFault ↔
      (selectedFault ≠ "" ∧ isRunning = true)) ∧
    (handleInjectFault selectedFault isRunning = none ↔
      (selectedFault = "" ∨ isRunning = false)) := by
  refine ⟨by simp [handleInjectFault], ?_, ?_, ?_⟩ <;>
    cases isRunning <;>
      by_cases hf : selectedFault = "" <;>
        simp [injectButtonDisabled, handleInjectFault, hf]

end HydraulicDashboard
